import Mathlib

/-!
Verification of the eco-health-ai surge & resource forecasting engine.

This file shallowly embeds the numeric core of the repository in Lean 4
and proves (or refutes) the frozen specification claims about it.
Python floating-point arithmetic is modelled by exact rational
arithmetic (`ℚ`), Python `int()` truncation by `pytrunc`, Python
`round(x, d)` (round-half-to-even) by `roundHalfEven`-based helpers,
and Python dictionaries by association lists with `.get`-style
default-0 lookup (`dget`).  All embedded definitions are translated
from the repository sources file-by-file; the source location of each
is named in its doc comment.
-/

namespace EcoHealth

/-- Python `int(q)`: truncation toward zero. -/
def pytrunc (q : ℚ) : ℤ :=
  if 0 ≤ q then ⌊q⌋ else -⌊-q⌋

/-- Python `round` to an integer: round half to even (banker's rounding),
which is what CPython's `round` builtin implements. -/
def roundHalfEven (q : ℚ) : ℤ :=
  let f := ⌊q⌋
  if q - f < 1/2 then f
  else if q - f > 1/2 then f + 1
  else if f % 2 = 0 then f else f + 1

/-- Python `round(q, 1)`. -/
def pyround1 (q : ℚ) : ℚ := (roundHalfEven (q * 10) : ℚ) / 10

/-- Python `round(q, 2)`. -/
def pyround2 (q : ℚ) : ℚ := (roundHalfEven (q * 100) : ℚ) / 100

/-- Python `d.get(k, 0)` on a string-keyed integer dict, the dict modelled
as an association list (Python dicts have unique keys). -/
def dget (m : List (String × ℤ)) (k : String) : ℤ :=
  match m.find? (fun p => p.1 == k) with
  | some p => p.2
  | none => 0

/-- Python `d[k]` on a string-keyed integer dict: `none` models the
`KeyError` raised when the key is absent. -/
def dfind (m : List (String × ℤ)) (k : String) : Option ℤ :=
  (m.find? (fun p => p.1 == k)).map (fun p => p.2)

/-- Whether the key is present in the dict (Python `k in d`). -/
def hasKey (m : List (String × ℤ)) (k : String) : Bool :=
  m.any (fun p => p.1 == k)

theorem pytrunc_eq_floor {q : ℚ} (h : 0 ≤ q) : pytrunc q = ⌊q⌋ := by
  simp [pytrunc, h]

theorem roundHalfEven_intCast (n : ℤ) : roundHalfEven (n : ℚ) = n := by
  simp [roundHalfEven]

namespace SurgePredictor

/-!
Embedding of `src/models/surge_predictor.py`, `SurgePredictor.predict`
(lines 28–96).  The method takes `aqi : float`, `weather : dict`
(read via `weather.get('max_temp', 0)` / `weather.get('rainfall', 0)`,
so we take the two numbers directly) and `events : list`.  The
narrative-generation call (Gemini) does not affect the numeric outputs
and is not modelled.
-/

/-- AQI contribution to the multiplier
(`if aqi > 400: +0.5 elif aqi > 300: +0.2 elif aqi > 200: +0.1`). -/
def aqiRisk (aqi : ℚ) : ℚ :=
  if aqi > 400 then 5/10
  else if aqi > 300 then 2/10
  else if aqi > 200 then 1/10
  else 0

/-- Rainfall contribution (`if rainfall > 50: +0.3 elif rainfall > 10: +0.1`). -/
def rainfallRisk (rainfall : ℚ) : ℚ :=
  if rainfall > 50 then 3/10
  else if rainfall > 10 then 1/10
  else 0

/-- Temperature contribution (`if max_temp > 36: +0.2`). -/
def heatRisk (maxTemp : ℚ) : ℚ :=
  if maxTemp > 36 then 2/10 else 0

/-- Per-event contribution of the `for event in events` loop
(`+0.3` for Diwali / Ganesh Chaturthi, `+0.1` for Monsoon Season). -/
def eventRisk (e : String) : ℚ :=
  if e = "Diwali" ∨ e = "Ganesh Chaturthi" then 3/10
  else if e = "Monsoon Season" then 1/10
  else 0

/-- The running `multiplier` variable at the end of `predict`,
before the `round(multiplier, 2)` in the returned dict. -/
def rawMultiplier (aqi maxTemp rainfall : ℚ) (events : List String) : ℚ :=
  1 + aqiRisk aqi + rainfallRisk rainfall + heatRisk maxTemp
    + (events.map eventRisk).sum

/-- The `'multiplier'` field of the returned dict: `round(multiplier, 2)`. -/
def predictMultiplier (aqi maxTemp rainfall : ℚ) (events : List String) : ℚ :=
  pyround2 (rawMultiplier aqi maxTemp rainfall events)

/-- The severity if-chain of `predict` (computed on the unrounded
multiplier, lines 69–73). -/
def severityOf (m : ℚ) : String :=
  if m ≥ 2 then "critical"
  else if m ≥ 17/10 then "major"
  else if m ≥ 14/10 then "moderate"
  else if m ≥ 12/10 then "minor"
  else "none"

/-- The `'severity'` field of the returned dict. -/
def predictSeverity (aqi maxTemp rainfall : ℚ) (events : List String) : String :=
  severityOf (rawMultiplier aqi maxTemp rainfall events)

theorem aqiRisk_nonneg (aqi : ℚ) : 0 ≤ aqiRisk aqi := by
  unfold aqiRisk; split_ifs <;> norm_num

theorem rainfallRisk_nonneg (r : ℚ) : 0 ≤ rainfallRisk r := by
  unfold rainfallRisk; split_ifs <;> norm_num

theorem heatRisk_nonneg (t : ℚ) : 0 ≤ heatRisk t := by
  unfold heatRisk; split_ifs <;> norm_num

theorem eventRisk_nonneg (e : String) : 0 ≤ eventRisk e := by
  unfold eventRisk; split_ifs <;> norm_num

theorem eventSum_nonneg (events : List String) :
    0 ≤ (events.map eventRisk).sum := by
  apply List.sum_nonneg
  intro x hx
  obtain ⟨e, _, rfl⟩ := List.mem_map.mp hx
  exact eventRisk_nonneg e

theorem aqiRisk_mono {a b : ℚ} (h : a ≤ b) : aqiRisk a ≤ aqiRisk b := by
  unfold aqiRisk
  split_ifs <;> linarith

theorem rainfallRisk_mono {a b : ℚ} (h : a ≤ b) :
    rainfallRisk a ≤ rainfallRisk b := by
  unfold rainfallRisk
  split_ifs <;> linarith

theorem heatRisk_mono {a b : ℚ} (h : a ≤ b) : heatRisk a ≤ heatRisk b := by
  unfold heatRisk
  split_ifs <;> linarith

/-- Every risk contribution is an integer multiple of 1/10. -/
theorem aqiRisk_tenth (aqi : ℚ) : ∃ k : ℤ, aqiRisk aqi = k / 10 := by
  unfold aqiRisk
  split_ifs
  · exact ⟨5, by norm_num⟩
  · exact ⟨2, by norm_num⟩
  · exact ⟨1, by norm_num⟩
  · exact ⟨0, by norm_num⟩

theorem rainfallRisk_tenth (r : ℚ) : ∃ k : ℤ, rainfallRisk r = k / 10 := by
  unfold rainfallRisk
  split_ifs
  · exact ⟨3, by norm_num⟩
  · exact ⟨1, by norm_num⟩
  · exact ⟨0, by norm_num⟩

theorem heatRisk_tenth (t : ℚ) : ∃ k : ℤ, heatRisk t = k / 10 := by
  unfold heatRisk
  split_ifs
  · exact ⟨2, by norm_num⟩
  · exact ⟨0, by norm_num⟩

theorem eventSum_tenth (events : List String) :
    ∃ k : ℤ, (events.map eventRisk).sum = k / 10 := by
  induction events with
  | nil => exact ⟨0, by simp⟩
  | cons e rest ih =>
      obtain ⟨k, hk⟩ := ih
      have he : ∃ j : ℤ, eventRisk e = j / 10 := by
        unfold eventRisk
        split_ifs
        · exact ⟨3, by norm_num⟩
        · exact ⟨1, by norm_num⟩
        · exact ⟨0, by norm_num⟩
      obtain ⟨j, hj⟩ := he
      refine ⟨j + k, ?_⟩
      simp only [List.map_cons, List.sum_cons, hj, hk]
      push_cast
      ring

/-- `round(multiplier, 2)` is the identity on the multipliers `predict`
produces: every contribution is a multiple of 0.1. -/
theorem predictMultiplier_eq_raw (aqi maxTemp rainfall : ℚ)
    (events : List String) :
    predictMultiplier aqi maxTemp rainfall events
      = rawMultiplier aqi maxTemp rainfall events := by
  obtain ⟨k1, h1⟩ := aqiRisk_tenth aqi
  obtain ⟨k2, h2⟩ := rainfallRisk_tenth rainfall
  obtain ⟨k3, h3⟩ := heatRisk_tenth maxTemp
  obtain ⟨k4, h4⟩ := eventSum_tenth events
  have hint : rawMultiplier aqi maxTemp rainfall events * 100
      = ((100 + 10 * (k1 + k2 + k3 + k4) : ℤ) : ℚ) := by
    unfold rawMultiplier
    rw [h1, h2, h3, h4]
    push_cast
    ring
  unfold predictMultiplier pyround2
  rw [hint, roundHalfEven_intCast]
  rw [div_eq_iff (by norm_num : (100:ℚ) ≠ 0)]
  exact hint.symm

/-- The tier table exactly as the claim words it: `<1.2`→none,
`[1.2,1.4)`→minor, `[1.4,1.7)`→moderate, `[1.7,2.0)`→major,
`≥2.0`→critical.  Stated from the claim for comparison with the
source-derived `severityOf`. -/
def claimedTier (m : ℚ) : String :=
  if m < 12/10 then "none"
  else if m < 14/10 then "minor"
  else if m < 17/10 then "moderate"
  else if m < 2 then "major"
  else "critical"

/-- C3: the surge multiplier returned by `SurgePredictor.predict` is
monotonically non-decreasing in AQI when rainfall, temperature and
events are held fixed, likewise non-decreasing in rainfall and in
temperature each considered independently, and never drops below 1.0. -/
theorem C3_multiplier_monotone (aqi aqi' maxTemp maxTemp' rainfall rainfall' : ℚ)
    (events : List String)
    (haqi : aqi ≤ aqi') (htemp : maxTemp ≤ maxTemp') (hrain : rainfall ≤ rainfall') :
    predictMultiplier aqi maxTemp rainfall events
        ≤ predictMultiplier aqi' maxTemp rainfall events
      ∧ predictMultiplier aqi maxTemp rainfall events
        ≤ predictMultiplier aqi maxTemp rainfall' events
      ∧ predictMultiplier aqi maxTemp rainfall events
        ≤ predictMultiplier aqi maxTemp' rainfall events
      ∧ 1 ≤ predictMultiplier aqi maxTemp rainfall events := by
  simp only [predictMultiplier_eq_raw]
  unfold rawMultiplier
  have h1 := aqiRisk_mono haqi
  have h2 := rainfallRisk_mono hrain
  have h3 := heatRisk_mono htemp
  have h4 := aqiRisk_nonneg aqi
  have h5 := rainfallRisk_nonneg rainfall
  have h6 := heatRisk_nonneg maxTemp
  have h7 := eventSum_nonneg events
  refine ⟨by linarith, by linarith, by linarith, by linarith⟩

theorem C3_multiplier_monotone_witness :
    predictMultiplier 250 30 0 [] ≤ predictMultiplier 450 30 0 []
      ∧ predictMultiplier 250 30 0 [] ≤ predictMultiplier 250 30 60 []
      ∧ predictMultiplier 250 30 0 [] ≤ predictMultiplier 250 40 0 []
      ∧ 1 ≤ predictMultiplier 250 30 0 [] :=
  C3_multiplier_monotone 250 450 30 40 0 60 []
    (by decide) (by decide) (by decide)

/-- C5: for every input, the severity tier assigned by `predict` is
determined from the returned multiplier by the tier table of the claim,
each boundary value (1.2, 1.4, 1.7, 2.0) falling into the stated tier. -/
theorem C5_severity_tiers (aqi maxTemp rainfall : ℚ) (events : List String) :
    predictSeverity aqi maxTemp rainfall events
      = claimedTier (predictMultiplier aqi maxTemp rainfall events) := by
  rw [predictMultiplier_eq_raw]
  unfold predictSeverity severityOf claimedTier
  split_ifs <;> first | rfl | (exfalso; linarith)

end SurgePredictor

namespace Monitor

/-!
Embedding of `src/scripts/continuous_surge_monitor.py`,
`calculate_admission_breakdown` (lines 58–86).  `weather` is a dict read
via `weather.get('rainfall', 0)` / `weather.get('max_temp', 0)`, so the
two numbers are taken directly; `if events:` is list non-emptiness.
-/

/-- The dict returned by `calculate_admission_breakdown`. -/
structure Breakdown where
  respiratory : ℤ
  waterborne : ℤ
  heat : ℤ
  trauma : ℤ
  other : ℤ
deriving DecidableEq

/-- `calculate_admission_breakdown(total_admissions, aqi, weather, events)`:
base percentages 15/10/5/20, conditional boosts (+10 respiratory if
AQI>200, +10 waterborne if rainfall>30, +8 heat if max_temp>35,
+12 trauma if any event), `other_pct = max(0, 1 - total_pct)`, then each
count is `int(total_admissions * pct)` — five independent truncations,
with no remainder absorption. -/
def calculate_admission_breakdown (total_admissions : ℤ) (aqi : ℚ)
    (rainfall max_temp : ℚ) (events : List String) : Breakdown :=
  let respiratory_pct : ℚ := 15/100 + (if aqi > 200 then 10/100 else 0)
  let waterborne_pct : ℚ := 10/100 + (if rainfall > 30 then 10/100 else 0)
  let heat_pct : ℚ := 5/100 + (if max_temp > 35 then 8/100 else 0)
  let trauma_pct : ℚ := 20/100 + (if events.isEmpty then 0 else 12/100)
  let total_pct := respiratory_pct + waterborne_pct + heat_pct + trauma_pct
  let other_pct := max 0 (1 - total_pct)
  { respiratory := pytrunc (total_admissions * respiratory_pct)
    waterborne := pytrunc (total_admissions * waterborne_pct)
    heat := pytrunc (total_admissions * heat_pct)
    trauma := pytrunc (total_admissions * trauma_pct)
    other := pytrunc (total_admissions * other_pct) }

/-- Sum of the five category counts of a breakdown. -/
def Breakdown.total (b : Breakdown) : ℤ :=
  b.respiratory + b.waterborne + b.heat + b.trauma + b.other

/-- C1 (code evaluated at the failing input): for `total_admissions = 10`
with calm conditions (AQI 100, no rain, no heat, no events) the five
category counts of `calculate_admission_breakdown` sum to 9, not 10 —
each category is truncated independently (1.5→1, 1.0→1, 0.5→0, 2.0→2,
5.0→5) and no bucket absorbs the remainder, so the claimed invariant
`respiratory+waterborne+heat+trauma+other == total` fails. -/
theorem C1_breakdown_sum_code_eval :
    (calculate_admission_breakdown 10 100 0 0 []).total = 9
      ∧ (calculate_admission_breakdown 10 100 0 0 []).total ≠ 10 := by
  norm_num [calculate_admission_breakdown, Breakdown.total, pytrunc]

end Monitor

namespace ResourceService

/-!
Embedding of `src/services/resource_service.py`,
`ResourceService.calculate_supply_needs` (lines 118–177), together with
the configuration tables of `src/services/resource_mappings.py`
(`SUPPLY_REQUIREMENTS`, `SAFETY_BUFFERS`).  The hospital type and
current inventory are the values the method extracts from
`self.inventory_data` (`hospital_info.get('type', 'Private')`,
`hospital_info.get('inventory', {})`); the admissions dict is read with
`admissions.get(category, 0)`, so it is modelled as a record of the
five category counts.
-/

/-- The five admission-category counts consumed by the service. -/
structure Admissions where
  respiratory : ℤ
  waterborne : ℤ
  heat_related : ℤ
  trauma : ℤ
  other : ℤ
deriving DecidableEq

/-- Per-patient consumption rates of one supply item
(one value row of `SUPPLY_REQUIREMENTS`). -/
structure SupplyRates where
  respiratory : ℚ
  waterborne : ℚ
  heat_related : ℚ
  trauma : ℚ
  other : ℚ
deriving DecidableEq

/-- `resource_mappings.SUPPLY_REQUIREMENTS` (lines 44–115). -/
def SUPPLY_REQUIREMENTS : List (String × SupplyRates) :=
  [ ("Oxygen Cylinders", ⟨3/10, 5/100, 2/10, 3/10, 25/100⟩)
  , ("Ventilators", ⟨1/10, 2/100, 5/100, 15/100, 8/100⟩)
  , ("Oxygen Masks", ⟨2, 5/10, 15/10, 2, 15/10⟩)
  , ("Humidifiers", ⟨3/10, 5/100, 1/10, 2/10, 15/100⟩)
  , ("Trauma Stretchers", ⟨1/10, 5/100, 2/10, 1, 15/100⟩)
  , ("IV Stand Kits", ⟨6/10, 8/10, 9/10, 95/100, 7/10⟩)
  , ("Defibrillators", ⟨2/100, 1/100, 5/100, 8/100, 15/100⟩)
  , ("Gloves/PPE", ⟨25, 20, 12, 30, 15⟩)
  , ("Cooling Pads", ⟨2, 1, 15, 3, 2⟩)
  , ("Thermometers", ⟨5/10, 3/10, 6/10, 4/10, 4/10⟩) ]

/-- `SAFETY_BUFFERS.get(hospital_type, 0.2)`:
Municipal → 0.30, Private → 0.20, anything else → the 0.2 default. -/
def safetyBufferGet (hospitalType : String) : ℚ :=
  if hospitalType = "Municipal" then 30/100
  else if hospitalType = "Private" then 20/100
  else 20/100

/-- `base_need = Σ_category admissions.get(category, 0) * requirements.get(category, 0)`. -/
def baseNeed (adm : Admissions) (r : SupplyRates) : ℚ :=
  adm.respiratory * r.respiratory + adm.waterborne * r.waterborne
    + adm.heat_related * r.heat_related + adm.trauma * r.trauma
    + adm.other * r.other

/-- `stock_percentage = current_stock / projected_need * 100 if
projected_need > 0 else 100` (the unrounded value used for the status
classification; the returned dict stores `round(stock_percentage, 1)`). -/
def coveragePct (projected_need current_stock : ℤ) : ℚ :=
  if projected_need > 0 then (current_stock : ℚ) / projected_need * 100 else 100

/-- One element of the `supplies_status` list. -/
structure SupplyStatus where
  item_name : String
  current_stock : ℤ
  projected_need : ℤ
  stock_percentage : ℚ
  status : String
  action_required : String
  quantity_to_order : ℤ
deriving DecidableEq

/-- The loop body of `calculate_supply_needs` for one supply item. -/
def supplyStatusFor (hospitalType : String) (inventory : List (String × ℤ))
    (adm : Admissions) (name : String) (rates : SupplyRates) : SupplyStatus :=
  let safety_buffer : ℚ := 1 + safetyBufferGet hospitalType
  let base_need := baseNeed adm rates
  let projected_need : ℤ := pytrunc (base_need * safety_buffer)
  let current_stock : ℤ := dget inventory name
  let stock_percentage : ℚ := coveragePct projected_need current_stock
  let sa : String × String :=
    if stock_percentage < 50 then ("CRITICAL", "ORDER_IMMEDIATELY")
    else if stock_percentage < 80 then ("LOW", "ORDER_IMMEDIATELY")
    else ("OK", "None")
  { item_name := name
    current_stock := current_stock
    projected_need := projected_need
    stock_percentage := pyround1 stock_percentage
    status := sa.1
    action_required := sa.2
    quantity_to_order := max 0 (projected_need - current_stock) }

/-- `ResourceService.calculate_supply_needs`: one status record per
`SUPPLY_REQUIREMENTS` item, in table order. -/
def calculate_supply_needs (hospitalType : String)
    (inventory : List (String × ℤ)) (adm : Admissions) : List SupplyStatus :=
  SUPPLY_REQUIREMENTS.map (fun p => supplyStatusFor hospitalType inventory adm p.1 p.2)

theorem supply_rates_nonneg :
    ∀ p ∈ SUPPLY_REQUIREMENTS, 0 ≤ p.2.respiratory ∧ 0 ≤ p.2.waterborne
      ∧ 0 ≤ p.2.heat_related ∧ 0 ≤ p.2.trauma ∧ 0 ≤ p.2.other := by
  intro p hp
  simp only [SUPPLY_REQUIREMENTS, List.mem_cons, List.not_mem_nil, or_false] at hp
  rcases hp with rfl | rfl | rfl | rfl | rfl | rfl | rfl | rfl | rfl | rfl <;>
    refine ⟨by norm_num, by norm_num, by norm_num, by norm_num, by norm_num⟩

theorem baseNeed_nonneg {adm : Admissions} {r : SupplyRates}
    (ha : 0 ≤ adm.respiratory) (hb : 0 ≤ adm.waterborne)
    (hc : 0 ≤ adm.heat_related) (hd : 0 ≤ adm.trauma) (he : 0 ≤ adm.other)
    (hr : 0 ≤ r.respiratory ∧ 0 ≤ r.waterborne ∧ 0 ≤ r.heat_related
      ∧ 0 ≤ r.trauma ∧ 0 ≤ r.other) :
    0 ≤ baseNeed adm r := by
  unfold baseNeed
  obtain ⟨h1, h2, h3, h4, h5⟩ := hr
  have ha' : (0:ℚ) ≤ adm.respiratory := by exact_mod_cast ha
  have hb' : (0:ℚ) ≤ adm.waterborne := by exact_mod_cast hb
  have hc' : (0:ℚ) ≤ adm.heat_related := by exact_mod_cast hc
  have hd' : (0:ℚ) ≤ adm.trauma := by exact_mod_cast hd
  have he' : (0:ℚ) ≤ adm.other := by exact_mod_cast he
  have := mul_nonneg ha' h1
  have := mul_nonneg hb' h2
  have := mul_nonneg hc' h3
  have := mul_nonneg hd' h4
  have := mul_nonneg he' h5
  linarith

theorem safetyBufferGet_nonneg (t : String) : 0 ≤ safetyBufferGet t := by
  unfold safetyBufferGet
  split_ifs <;> norm_num

/-- C2: every supply item emitted by the procurement planner has
`quantity_to_order = max(0, ⌊base_need×(1+buffer)⌋ − current_stock)`
with `base_need` the rate-weighted sum over the five admission
categories, the buffer 0.30 for Municipal and 0.20 for Private
facilities, and `quantity_to_order ≥ 0` always. -/
theorem C2_quantity_to_order (hospitalType : String)
    (inventory : List (String × ℤ)) (adm : Admissions)
    (ha : 0 ≤ adm.respiratory) (hb : 0 ≤ adm.waterborne)
    (hc : 0 ≤ adm.heat_related) (hd : 0 ≤ adm.trauma) (he : 0 ≤ adm.other) :
    (∀ entry ∈ calculate_supply_needs hospitalType inventory adm,
        ∃ p ∈ SUPPLY_REQUIREMENTS,
          entry.item_name = p.1
            ∧ entry.quantity_to_order
                = max 0 (⌊baseNeed adm p.2 * (1 + safetyBufferGet hospitalType)⌋
                    - dget inventory p.1)
            ∧ 0 ≤ entry.quantity_to_order)
      ∧ safetyBufferGet "Municipal" = 30/100
      ∧ safetyBufferGet "Private" = 20/100 := by
  refine ⟨?_, by simp [safetyBufferGet], by simp [safetyBufferGet]⟩
  intro entry hmem
  obtain ⟨p, hp, rfl⟩ := List.mem_map.mp hmem
  refine ⟨p, hp, rfl, ?_, ?_⟩
  · have hbase : 0 ≤ baseNeed adm p.2 :=
      baseNeed_nonneg ha hb hc hd he (supply_rates_nonneg p hp)
    have hbuf : (0:ℚ) ≤ 1 + safetyBufferGet hospitalType := by
      have := safetyBufferGet_nonneg hospitalType
      linarith
    simp only [supplyStatusFor]
    rw [pytrunc_eq_floor (mul_nonneg hbase hbuf)]
  · simp only [supplyStatusFor]
    exact le_max_left 0 _

theorem C2_quantity_to_order_witness :
    (∀ entry ∈ calculate_supply_needs "Municipal" [("Oxygen Cylinders", 400)]
        ⟨100, 20, 10, 30, 40⟩,
        ∃ p ∈ SUPPLY_REQUIREMENTS,
          entry.item_name = p.1
            ∧ entry.quantity_to_order
                = max 0 (⌊baseNeed ⟨100, 20, 10, 30, 40⟩ p.2
                    * (1 + safetyBufferGet "Municipal")⌋
                    - dget [("Oxygen Cylinders", 400)] p.1)
            ∧ 0 ≤ entry.quantity_to_order)
      ∧ safetyBufferGet "Municipal" = 30/100
      ∧ safetyBufferGet "Private" = 20/100 :=
  C2_quantity_to_order "Municipal" [("Oxygen Cylinders", 400)]
    ⟨100, 20, 10, 30, 40⟩ (by decide) (by decide) (by decide) (by decide) (by decide)

/-- The status table exactly as the claim words it: coverage below 50%
→ CRITICAL, from 50% up to 80% → LOW, above 80% → OK.  Stated from the
claim's words for comparison with the source-derived classification
(under this table, exactly-80% coverage falls in LOW). -/
def claimedStatus (pct : ℚ) : String :=
  if pct < 50 then "CRITICAL"
  else if pct ≤ 80 then "LOW"
  else "OK"

/-- C6 counterexample: a Private facility with Oxygen Masks stock 4 and
admissions (respiratory 2, waterborne 1) has projected need
`int(4.5 × 1.2) = 5`, so coverage is exactly 80% — the code classifies
it OK/None, while the claim's table ("from 50% up to 80% yields LOW")
assigns LOW, so the claim as stated is false at this input. -/
theorem C6_boundary_counterexample :
    ∃ entry ∈ calculate_supply_needs "Private" [("Oxygen Masks", 4)]
        ⟨2, 1, 0, 0, 0⟩,
      entry.item_name = "Oxygen Masks"
        ∧ coveragePct entry.projected_need entry.current_stock = 80
        ∧ entry.status = "OK"
        ∧ entry.action_required = "None"
        ∧ claimedStatus (coveragePct entry.projected_need entry.current_stock) = "LOW"
        ∧ entry.status ≠ claimedStatus (coveragePct entry.projected_need entry.current_stock) := by
  refine ⟨supplyStatusFor "Private" [("Oxygen Masks", 4)] ⟨2, 1, 0, 0, 0⟩
      "Oxygen Masks" ⟨2, 5/10, 15/10, 2, 15/10⟩, ?_, ?_⟩
  · unfold calculate_supply_needs
    exact List.mem_map.mpr
      ⟨("Oxygen Masks", ⟨2, 5/10, 15/10, 2, 15/10⟩),
        by simp [SUPPLY_REQUIREMENTS], rfl⟩
  · have hb : safetyBufferGet "Private" = 1/5 := by
      simp [safetyBufferGet]
      norm_num
    simp only [supplyStatusFor, hb]
    norm_num [coveragePct, claimedStatus, baseNeed, dget, pytrunc, List.find?]
    simp

/-- C6 as amended: the status classification follows the stock coverage
ratio with the 80% boundary in OK — coverage below 50% yields
CRITICAL/ORDER_IMMEDIATELY, coverage at least 50% and strictly below
80% yields LOW/ORDER_IMMEDIATELY, and coverage of 80% or more yields
OK/None (coverage taken as 100% when projected need is 0). -/
theorem C6_status_classification (hospitalType : String)
    (inventory : List (String × ℤ)) (adm : Admissions) :
    ∀ entry ∈ calculate_supply_needs hospitalType inventory adm,
      (coveragePct entry.projected_need entry.current_stock < 50 →
          entry.status = "CRITICAL" ∧ entry.action_required = "ORDER_IMMEDIATELY")
        ∧ (50 ≤ coveragePct entry.projected_need entry.current_stock
            ∧ coveragePct entry.projected_need entry.current_stock < 80 →
          entry.status = "LOW" ∧ entry.action_required = "ORDER_IMMEDIATELY")
        ∧ (80 ≤ coveragePct entry.projected_need entry.current_stock →
          entry.status = "OK" ∧ entry.action_required = "None") := by
  intro entry hmem
  obtain ⟨p, hp, rfl⟩ := List.mem_map.mp hmem
  simp only [supplyStatusFor]
  refine ⟨fun hlt => ?_, fun hmid => ?_, fun hge => ?_⟩
  · rw [if_pos hlt]
    exact ⟨rfl, rfl⟩
  · rw [if_neg (not_lt.mpr hmid.1), if_pos hmid.2]
    exact ⟨rfl, rfl⟩
  · rw [if_neg (not_lt.mpr (by linarith)), if_neg (not_lt.mpr hge)]
    exact ⟨rfl, rfl⟩

theorem C6_status_classification_witness :
    (coveragePct (supplyStatusFor "Private" [("Oxygen Masks", 4)] ⟨2, 1, 0, 0, 0⟩
          "Oxygen Masks" ⟨2, 5/10, 15/10, 2, 15/10⟩).projected_need
        (supplyStatusFor "Private" [("Oxygen Masks", 4)] ⟨2, 1, 0, 0, 0⟩
          "Oxygen Masks" ⟨2, 5/10, 15/10, 2, 15/10⟩).current_stock < 50 →
        (supplyStatusFor "Private" [("Oxygen Masks", 4)] ⟨2, 1, 0, 0, 0⟩
          "Oxygen Masks" ⟨2, 5/10, 15/10, 2, 15/10⟩).status = "CRITICAL"
          ∧ (supplyStatusFor "Private" [("Oxygen Masks", 4)] ⟨2, 1, 0, 0, 0⟩
            "Oxygen Masks" ⟨2, 5/10, 15/10, 2, 15/10⟩).action_required
              = "ORDER_IMMEDIATELY")
      ∧ (50 ≤ coveragePct (supplyStatusFor "Private" [("Oxygen Masks", 4)]
            ⟨2, 1, 0, 0, 0⟩ "Oxygen Masks" ⟨2, 5/10, 15/10, 2, 15/10⟩).projected_need
          (supplyStatusFor "Private" [("Oxygen Masks", 4)] ⟨2, 1, 0, 0, 0⟩
            "Oxygen Masks" ⟨2, 5/10, 15/10, 2, 15/10⟩).current_stock
          ∧ coveragePct (supplyStatusFor "Private" [("Oxygen Masks", 4)]
              ⟨2, 1, 0, 0, 0⟩ "Oxygen Masks" ⟨2, 5/10, 15/10, 2, 15/10⟩).projected_need
            (supplyStatusFor "Private" [("Oxygen Masks", 4)] ⟨2, 1, 0, 0, 0⟩
              "Oxygen Masks" ⟨2, 5/10, 15/10, 2, 15/10⟩).current_stock < 80 →
        (supplyStatusFor "Private" [("Oxygen Masks", 4)] ⟨2, 1, 0, 0, 0⟩
          "Oxygen Masks" ⟨2, 5/10, 15/10, 2, 15/10⟩).status = "LOW"
          ∧ (supplyStatusFor "Private" [("Oxygen Masks", 4)] ⟨2, 1, 0, 0, 0⟩
            "Oxygen Masks" ⟨2, 5/10, 15/10, 2, 15/10⟩).action_required
              = "ORDER_IMMEDIATELY")
      ∧ (80 ≤ coveragePct (supplyStatusFor "Private" [("Oxygen Masks", 4)]
            ⟨2, 1, 0, 0, 0⟩ "Oxygen Masks" ⟨2, 5/10, 15/10, 2, 15/10⟩).projected_need
          (supplyStatusFor "Private" [("Oxygen Masks", 4)] ⟨2, 1, 0, 0, 0⟩
            "Oxygen Masks" ⟨2, 5/10, 15/10, 2, 15/10⟩).current_stock →
        (supplyStatusFor "Private" [("Oxygen Masks", 4)] ⟨2, 1, 0, 0, 0⟩
          "Oxygen Masks" ⟨2, 5/10, 15/10, 2, 15/10⟩).status = "OK"
          ∧ (supplyStatusFor "Private" [("Oxygen Masks", 4)] ⟨2, 1, 0, 0, 0⟩
            "Oxygen Masks" ⟨2, 5/10, 15/10, 2, 15/10⟩).action_required = "None") :=
  C6_status_classification "Private" [("Oxygen Masks", 4)] ⟨2, 1, 0, 0, 0⟩
    (supplyStatusFor "Private" [("Oxygen Masks", 4)] ⟨2, 1, 0, 0, 0⟩
      "Oxygen Masks" ⟨2, 5/10, 15/10, 2, 15/10⟩)
    (List.mem_map.mpr ⟨("Oxygen Masks", ⟨2, 5/10, 15/10, 2, 15/10⟩),
      by simp [SUPPLY_REQUIREMENTS], rfl⟩)

end ResourceService

namespace Agent

/-!
Embedding of `src/agent/resource_recommendation_agent.py`,
`ResourceRecommendationAgent`.  The instance configuration is the
constructor's `self.lead_times` table and
`self.inventory_buffer = 0.15`; clinical criticality is the inline dict
of `calculate_resource_priority`.
-/

/-- `self.lead_times` (constructor, lines 26–35). -/
def lead_times : List (String × ℤ) :=
  [ ("doctors", 0), ("nurses", 0), ("support_staff", 1), ("ppe_kits", 2)
  , ("oxygen_liters", 1), ("iv_fluids_ml", 2), ("medications_units", 3)
  , ("bed_linens", 1) ]

/-- The clinical-criticality dict of `calculate_resource_priority`
(lines 74–84), looked up with default 0.5. -/
def clinicalCriticality (resource_type : String) : ℚ :=
  if resource_type = "doctors" then 1
  else if resource_type = "nurses" then 1
  else if resource_type = "oxygen_liters" then 95/100
  else if resource_type = "medications_units" then 9/10
  else if resource_type = "ppe_kits" then 85/100
  else if resource_type = "iv_fluids_ml" then 85/100
  else if resource_type = "beds_needed" then 8/10
  else if resource_type = "support_staff" then 75/100
  else if resource_type = "bed_linens" then 6/10
  else 5/10

/-- `ResourceRecommendationAgent.calculate_resource_priority`
(lines 60–88): `min(100, 100 * shortage_ratio * time_urgency *
clinical_criticality)` with `lead_times.get(resource_type, 0)`. -/
def calculate_resource_priority (resource_type : String)
    (current_stock required days_until_surge : ℤ) : ℚ :=
  let shortage_ratio : ℚ :=
    if required > 0 then max 0 (((required : ℚ) - current_stock) / required) else 0
  let lead_time := dget lead_times resource_type
  let time_urgency : ℚ :=
    if days_until_surge ≤ lead_time then 1
    else max 0 (1 - ((days_until_surge : ℚ) - lead_time) / 7)
  let priority := 100 * shortage_ratio * time_urgency * clinicalCriticality resource_type
  min 100 priority

/-- One element of the `procurement_plan` list built by the agent's
`calculate_supply_needs`. -/
structure ProcItem where
  supply : String
  required : ℤ
  current_stock : ℤ
  to_order : ℤ
  priority : ℚ
  lead_time_days : ℤ
  order_immediately : Bool
  delivery_possible : Bool

/-- The loop of `calculate_supply_needs` (lines 115–142): items with
zero buffered shortage are skipped (`continue`); `self.lead_times
[supply_type]` is a direct subscript, so an unlisted supply type with a
positive shortage raises `KeyError`, modelled as `none` for the whole
call. -/
def buildProcurement (days_until_surge : ℤ)
    (current_inventory : List (String × ℤ)) :
    List (String × ℤ) → Option (List ProcItem)
  | [] => some []
  | (supply_type, required) :: rest =>
      let current := dget current_inventory supply_type
      let shortage : ℤ :=
        max 0 (pytrunc ((required : ℚ) * (1 + 15/100) - (current : ℚ)))
      if shortage = 0 then
        buildProcurement days_until_surge current_inventory rest
      else
        (dfind lead_times supply_type).bind (fun lead_time =>
          let priority :=
            calculate_resource_priority supply_type current required days_until_surge
          let delivery_possible : Bool := days_until_surge > lead_time
          (buildProcurement days_until_surge current_inventory rest).map
            (fun tail =>
              { supply := supply_type
                required := required
                current_stock := current
                to_order := shortage
                priority := priority
                lead_time_days := lead_time
                order_immediately := decide (priority > 80) || !delivery_possible
                delivery_possible := delivery_possible } :: tail))

/-- Stable insertion for the descending-priority sort
(`procurement_plan.sort(key=..., reverse=True)` is stable). -/
def insertDesc (x : ProcItem) : List ProcItem → List ProcItem
  | [] => [x]
  | y :: ys => if x.priority ≥ y.priority then x :: y :: ys else y :: insertDesc x ys

/-- Stable sort by descending priority. -/
def sortDesc : List ProcItem → List ProcItem
  | [] => []
  | x :: xs => insertDesc x (sortDesc xs)

/-- `ResourceRecommendationAgent.calculate_supply_needs`
(lines 109–147): build the plan, then sort it by priority descending. -/
def calculate_supply_needs (required_supplies current_inventory : List (String × ℤ))
    (days_until_surge : ℤ) : Option (List ProcItem) :=
  (buildProcurement days_until_surge current_inventory required_supplies).map sortDesc

theorem mem_insertDesc {x a : ProcItem} {l : List ProcItem} :
    a ∈ insertDesc x l ↔ a = x ∨ a ∈ l := by
  induction l with
  | nil => simp [insertDesc]
  | cons y ys ih =>
      unfold insertDesc
      split_ifs
      · simp
      · simp only [List.mem_cons, ih]
        tauto

theorem mem_sortDesc {a : ProcItem} {l : List ProcItem} :
    a ∈ sortDesc l ↔ a ∈ l := by
  induction l with
  | nil => simp [sortDesc]
  | cons y ys ih =>
      unfold sortDesc
      rw [mem_insertDesc]
      simp [ih]

/-- Every item of a successfully built procurement plan records exactly
the values the loop computed for its supply type. -/
theorem buildProcurement_mem_spec :
    ∀ (reqs : List (String × ℤ)) {days : ℤ} {inv : List (String × ℤ)}
      {l : List ProcItem},
      buildProcurement days inv reqs = some l →
      ∀ item ∈ l,
        item.current_stock = dget inv item.supply
          ∧ item.to_order
              = max 0 (pytrunc ((item.required : ℚ) * (1 + 15/100)
                  - (item.current_stock : ℚ)))
          ∧ item.to_order ≠ 0
          ∧ dfind lead_times item.supply = some item.lead_time_days
          ∧ item.priority = calculate_resource_priority item.supply
              item.current_stock item.required days
          ∧ item.delivery_possible = decide (item.lead_time_days < days)
          ∧ item.order_immediately
              = (decide (item.priority > 80) || !item.delivery_possible) := by
  intro reqs
  induction reqs with
  | nil =>
      intro days inv l h item hmem
      simp only [buildProcurement, Option.some.injEq] at h
      subst h
      simp at hmem
  | cons hd rest ih =>
      intro days inv l h item hmem
      obtain ⟨s, req⟩ := hd
      simp only [buildProcurement] at h
      by_cases hz :
          (max 0 (pytrunc ((req : ℚ) * (1 + 15/100) - ((dget inv s : ℤ) : ℚ)))) = 0
      · rw [if_pos hz] at h
        exact ih h item hmem
      · rw [if_neg hz] at h
        cases hf : dfind lead_times s with
        | none => rw [hf] at h; simp at h
        | some lt =>
            rw [hf] at h
            cases hr : buildProcurement days inv rest with
            | none => rw [hr] at h; simp at h
            | some tail =>
                rw [hr] at h
                simp only [Option.some_bind, Option.map_some', Option.some.injEq] at h
                subst h
                rcases List.mem_cons.mp hmem with rfl | hmem2
                · exact ⟨rfl, rfl, hz, hf, rfl, rfl, rfl⟩
                · exact ih hr item hmem2

theorem clinicalCriticality_nonneg (s : String) : 0 ≤ clinicalCriticality s := by
  unfold clinicalCriticality
  split_ifs <;> norm_num

theorem clinicalCriticality_le_one (s : String) : clinicalCriticality s ≤ 1 := by
  unfold clinicalCriticality
  split_ifs <;> norm_num

/-- C7: the agent's priority score equals
`100 × shortage_ratio × time_urgency × clinical_criticality` with the
claim's formulas for each factor (the `min(100, ·)` in the code is the
identity once the stock is non-negative), and the score always lies in
`[0, 100]`. -/
theorem C7_priority_formula (resource_type : String)
    (current_stock required days_until_surge : ℤ) (hcur : 0 ≤ current_stock) :
    calculate_resource_priority resource_type current_stock required days_until_surge
        = 100 * (if required > 0
              then max 0 (((required : ℚ) - current_stock) / required) else 0)
            * (if days_until_surge ≤ dget lead_times resource_type then 1
              else max 0 (1 - ((days_until_surge : ℚ)
                  - dget lead_times resource_type) / 7))
            * clinicalCriticality resource_type
      ∧ 0 ≤ calculate_resource_priority resource_type current_stock required
          days_until_surge
      ∧ calculate_resource_priority resource_type current_stock required
          days_until_surge ≤ 100 := by
  set ratio : ℚ := if required > 0
      then max 0 (((required : ℚ) - current_stock) / required) else 0 with hratio
  set urgency : ℚ := if days_until_surge ≤ dget lead_times resource_type then 1
      else max 0 (1 - ((days_until_surge : ℚ)
          - dget lead_times resource_type) / 7) with hurg
  have hr0 : 0 ≤ ratio := by
    rw [hratio]
    split_ifs
    · exact le_max_left 0 _
    · exact le_refl 0
  have hr1 : ratio ≤ 1 := by
    rw [hratio]
    split_ifs with hreq
    · have hreqQ : (0:ℚ) < required := by exact_mod_cast hreq
      have hcurQ : (0:ℚ) ≤ current_stock := by exact_mod_cast hcur
      refine max_le (by norm_num) ?_
      rw [div_le_one hreqQ]
      linarith
    · norm_num
  have hu0 : 0 ≤ urgency := by
    rw [hurg]
    split_ifs
    · norm_num
    · exact le_max_left 0 _
  have hu1 : urgency ≤ 1 := by
    rw [hurg]
    split_ifs with hdays
    · norm_num
    · push_neg at hdays
      have h1 : (1:ℤ) ≤ days_until_surge - dget lead_times resource_type := by
        omega
      have h1Q : (1:ℚ) ≤ (days_until_surge : ℚ) - dget lead_times resource_type := by
        exact_mod_cast h1
      refine max_le (by norm_num) (by linarith)
  have hc0 := clinicalCriticality_nonneg resource_type
  have hc1 := clinicalCriticality_le_one resource_type
  have hprod : ratio * urgency * clinicalCriticality resource_type ≤ 1 :=
    mul_le_one₀ (mul_le_one₀ hr1 hu0 hu1) hc0 hc1
  have hle : 100 * ratio * urgency * clinicalCriticality resource_type ≤ 100 := by
    nlinarith
  have hge : 0 ≤ 100 * ratio * urgency * clinicalCriticality resource_type := by
    have := mul_nonneg (mul_nonneg (mul_nonneg (by norm_num : (0:ℚ) ≤ 100) hr0) hu0) hc0
    exact this
  have heq : calculate_resource_priority resource_type current_stock required
      days_until_surge
      = 100 * ratio * urgency * clinicalCriticality resource_type := by
    simp only [calculate_resource_priority]
    rw [← hratio, ← hurg]
    exact min_eq_right hle
  exact ⟨heq, heq ▸ hge, heq ▸ hle⟩

theorem C7_priority_formula_witness :
    calculate_resource_priority "oxygen_liters" 1000 3000 5
        = 100 * (if (3000:ℤ) > 0
              then max 0 (((3000 : ℚ) - 1000) / 3000) else 0)
            * (if (5:ℤ) ≤ dget lead_times "oxygen_liters" then 1
              else max 0 (1 - ((5 : ℚ) - dget lead_times "oxygen_liters") / 7))
            * clinicalCriticality "oxygen_liters"
      ∧ 0 ≤ calculate_resource_priority "oxygen_liters" 1000 3000 5
      ∧ calculate_resource_priority "oxygen_liters" 1000 3000 5 ≤ 100 :=
  C7_priority_formula "oxygen_liters" 1000 3000 5 (by decide)

/-- C8: every item of a produced procurement plan has
`order_immediately = (priority_score > 80) OR NOT delivery_possible`
with `delivery_possible = days_until_surge > lead_time_days`; in
particular any item with `days_until_surge ≤ lead_time_days` is marked
`order_immediately` whatever its priority. -/
theorem C8_order_immediately (required_supplies current_inventory : List (String × ℤ))
    (days_until_surge : ℤ) (plan : List ProcItem)
    (h : calculate_supply_needs required_supplies current_inventory days_until_surge
        = some plan) :
    ∀ item ∈ plan,
      item.order_immediately
          = (decide ((80:ℚ) < item.priority) || !item.delivery_possible)
        ∧ item.delivery_possible = decide (item.lead_time_days < days_until_surge)
        ∧ (days_until_surge ≤ item.lead_time_days → item.order_immediately = true) := by
  intro item hmem
  unfold calculate_supply_needs at h
  cases hb : buildProcurement days_until_surge current_inventory required_supplies with
  | none => rw [hb] at h; simp at h
  | some l0 =>
      rw [hb] at h
      simp only [Option.map_some', Option.some.injEq] at h
      subst h
      have hmem0 : item ∈ l0 := mem_sortDesc.mp hmem
      obtain ⟨-, -, -, -, -, hdel, hord⟩ :=
        buildProcurement_mem_spec required_supplies hb item hmem0
      refine ⟨hord, hdel, fun hle => ?_⟩
      have : item.delivery_possible = false := by
        rw [hdel, decide_eq_false_iff_not]
        omega
      rw [hord, this]
      simp

theorem C8_order_immediately_witness :
    (ProcItem.mk "ppe_kits" 600 0 690 85 2 true false).order_immediately
        = (decide ((80:ℚ) < (ProcItem.mk "ppe_kits" 600 0 690 85 2 true false).priority)
            || !(ProcItem.mk "ppe_kits" 600 0 690 85 2 true false).delivery_possible)
      ∧ (ProcItem.mk "ppe_kits" 600 0 690 85 2 true false).delivery_possible
          = decide ((ProcItem.mk "ppe_kits" 600 0 690 85 2 true false).lead_time_days < 1)
      ∧ ((1:ℤ) ≤ (ProcItem.mk "ppe_kits" 600 0 690 85 2 true false).lead_time_days →
          (ProcItem.mk "ppe_kits" 600 0 690 85 2 true false).order_immediately = true) :=
  C8_order_immediately [("ppe_kits", 600)] [] 1
    [ ProcItem.mk "ppe_kits" 600 0 690 85 2 true false ]
    (by
      simp [calculate_supply_needs, buildProcurement, sortDesc, insertDesc,
        dget, dfind, lead_times, calculate_resource_priority, clinicalCriticality,
        List.find?, pytrunc]
      norm_num [sortDesc, insertDesc])
    (ProcItem.mk "ppe_kits" 600 0 690 85 2 true false)
    (List.mem_singleton.mpr rfl)

theorem pytrunc_nonpos {q : ℚ} (h : q ≤ 0) : pytrunc q ≤ 0 := by
  unfold pytrunc
  split_ifs with h0
  · exact Int.floor_nonpos h
  · have : (0:ℤ) ≤ ⌊-q⌋ := Int.floor_nonneg.mpr (by linarith)
    omega

/-- C10: every element of a produced procurement plan has a strictly
positive `to_order`; an item whose stock covers the buffered requirement
(`max(0, required × 1.15 − current) = 0`) is omitted from the plan
rather than reported with a zero order quantity. -/
theorem C10_plan_positive_orders (required_supplies current_inventory : List (String × ℤ))
    (days_until_surge : ℤ) (plan : List ProcItem)
    (h : calculate_supply_needs required_supplies current_inventory days_until_surge
        = some plan) :
    ∀ item ∈ plan,
      0 < item.to_order
        ∧ 0 < max 0 ((item.required : ℚ) * (1 + 15/100) - (item.current_stock : ℚ)) := by
  intro item hmem
  unfold calculate_supply_needs at h
  cases hb : buildProcurement days_until_surge current_inventory required_supplies with
  | none => rw [hb] at h; simp at h
  | some l0 =>
      rw [hb] at h
      simp only [Option.map_some', Option.some.injEq] at h
      subst h
      have hmem0 : item ∈ l0 := mem_sortDesc.mp hmem
      obtain ⟨-, hto, hne, -, -, -, -⟩ :=
        buildProcurement_mem_spec required_supplies hb item hmem0
      have hpos : 0 < item.to_order := by
        have h0 : 0 ≤ item.to_order := hto ▸ le_max_left 0 _
        omega
      refine ⟨hpos, ?_⟩
      by_contra hcon
      push_neg at hcon
      have hx : (item.required : ℚ) * (1 + 15/100) - (item.current_stock : ℚ) ≤ 0 := by
        rcases le_or_lt ((item.required : ℚ) * (1 + 15/100) - item.current_stock) 0 with hle | hlt
        · exact hle
        · exfalso
          have : (0:ℚ) < max 0 ((item.required : ℚ) * (1 + 15/100) - item.current_stock) :=
            lt_max_of_lt_right hlt
          linarith
      have htr : pytrunc ((item.required : ℚ) * (1 + 15/100) - (item.current_stock : ℚ)) ≤ 0 :=
        pytrunc_nonpos hx
      rw [hto] at hpos
      omega

theorem C10_plan_positive_orders_witness :
    0 < (ProcItem.mk "ppe_kits" 600 0 690 85 2 true false).to_order
      ∧ 0 < max 0 (((ProcItem.mk "ppe_kits" 600 0 690 85 2 true false).required : ℚ)
          * (1 + 15/100)
          - ((ProcItem.mk "ppe_kits" 600 0 690 85 2 true false).current_stock : ℚ)) :=
  C10_plan_positive_orders [("ppe_kits", 600)] [] 1
    [ ProcItem.mk "ppe_kits" 600 0 690 85 2 true false ]
    (by
      simp [calculate_supply_needs, buildProcurement, sortDesc, insertDesc,
        dget, dfind, lead_times, calculate_resource_priority, clinicalCriticality,
        List.find?, pytrunc]
      norm_num [sortDesc, insertDesc])
    (ProcItem.mk "ppe_kits" 600 0 690 85 2 true false)
    (List.mem_singleton.mpr rfl)

/-- One value of the allocation dict built by `calculate_staff_needs`. -/
structure StaffDetail where
  required : ℤ
  available : ℤ
  to_deploy : ℤ
  coverage : ℚ

/-- Loop body of `ResourceRecommendationAgent.calculate_staff_needs`
(lines 95–105) for one staff type: `shortage = max(0, required −
available)` and `coverage = (available + shortage)/required*100 if
required > 0 else 100` — note the source applies no `min(100, ·)` cap
here. -/
def staffDetailFor (required_staff available_staff : List (String × ℤ))
    (staff_type : String) : StaffDetail :=
  let required := dget required_staff staff_type
  let available := dget available_staff staff_type
  let shortage := max 0 (required - available)
  { required := required
    available := available
    to_deploy := shortage
    coverage := if required > 0
      then ((available : ℚ) + (shortage : ℚ)) / (required : ℚ) * 100 else 100 }

/-- `ResourceRecommendationAgent.calculate_staff_needs` (lines 90–107):
the loop runs over the fixed list of the three staff types. -/
def calculate_staff_needs (required_staff available_staff : List (String × ℤ)) :
    List (String × StaffDetail) :=
  ["doctors", "nurses", "support_staff"].map
    (fun t => (t, staffDetailFor required_staff available_staff t))

/-- `np.mean` of a list of scores (only applied to non-empty lists,
guarded by the `if scores else 100` in the source). -/
def mean (l : List ℚ) : ℚ := l.sum / l.length

/-- `ResourceRecommendationAgent._calculate_readiness_score`
(lines 329–346): staff scores are taken directly from the staff plan's
`coverage` values (uncapped), supply scores are
`min(100, (current_stock + to_order)/required*100)` (100 when
`required == 0`), and the result is
`round(avg_staff*0.6 + avg_supply*0.4, 1)`. -/
def calculate_readiness_score (staff_plan : List (String × StaffDetail))
    (supply_plan : List ProcItem) : ℚ :=
  let staff_scores := staff_plan.map (fun p => p.2.coverage)
  let avg_staff_readiness := if staff_scores.isEmpty then 100 else mean staff_scores
  let supply_scores := supply_plan.map (fun item =>
    min 100 (if item.required > 0
      then ((item.current_stock : ℚ) + (item.to_order : ℚ)) / (item.required : ℚ) * 100
      else 100))
  let avg_supply_readiness := if supply_scores.isEmpty then 100 else mean supply_scores
  pyround1 (avg_staff_readiness * (6/10) + avg_supply_readiness * (4/10))

/-- C9 (code evaluated at the failing input): with doctors required 10
but 20 available (nurses and support staff at 0/0) and an empty supply
plan, the staff coverage for doctors is `(20+0)/10*100 = 200` — the
source caps supply coverage at 100 but not staff coverage — so the
returned readiness score is `round((200+100+100)/3*0.6 + 100*0.4, 1)
= 120`, outside the claimed range `[0, 100]`. -/
theorem C9_readiness_code_eval :
    calculate_readiness_score
        (calculate_staff_needs [("doctors", 10)] [("doctors", 20)]) [] = 120
      ∧ ¬ calculate_readiness_score
          (calculate_staff_needs [("doctors", 10)] [("doctors", 20)]) [] ≤ 100 := by
  have h : calculate_readiness_score
      (calculate_staff_needs [("doctors", 10)] [("doctors", 20)]) [] = 120 := by
    simp [calculate_readiness_score, calculate_staff_needs, staffDetailFor,
      dget, List.find?, mean, pyround1, roundHalfEven]
    norm_num
  exact ⟨h, by rw [h]; norm_num⟩

/-!
Embedding of `ResourceRecommendationAgent.generate_multi_hospital_recommendations`
(lines 149–221).  The per-hospital analysis loop iterates over
`required.keys()` only, so a hospital contributes its required amount,
its available amount, and a surplus/shortage entry for a resource type
only when that type is a key of its own `required_resources` dict.  The
aggregates below are stated per resource type; they equal the
corresponding dict entries of the returned report (dicts read with
default 0 for absent types).  The function only reads `hospitals_data`;
the embedding is a pure function of it, so the input is never mutated.
-/

/-- One entry of `hospitals_data`. -/
structure Hospital where
  hospital_id : String
  required_resources : List (String × ℤ)
  available_resources : List (String × ℤ)

/-- The surplus recorded for one hospital and one resource type
(lines 170–174): present iff the type is among the hospital's required
keys and `avail > req`, in which case it is `avail − req`; 0 otherwise. -/
def surplusAmt (h : Hospital) (t : String) : ℤ :=
  if hasKey h.required_resources t
      ∧ dget h.required_resources t < dget h.available_resources t
  then dget h.available_resources t - dget h.required_resources t else 0

/-- The shortage recorded for one hospital and one resource type
(lines 175–179). -/
def shortageAmt (h : Hospital) (t : String) : ℤ :=
  if hasKey h.required_resources t
      ∧ dget h.available_resources t < dget h.required_resources t
  then dget h.required_resources t - dget h.available_resources t else 0

/-- `total_requirements[t]` (line 167): accumulated over hospitals whose
own required dict lists `t`. -/
def totalRequired (hs : List Hospital) (t : String) : ℤ :=
  (hs.map (fun h => if hasKey h.required_resources t
    then dget h.required_resources t else 0)).sum

/-- `total_available[t]` (line 168): accumulated in the same loop over
`required.keys()`, so a hospital's availability of `t` is only counted
when `t` is a key of its required dict. -/
def totalAvailable (hs : List Hospital) (t : String) : ℤ :=
  (hs.map (fun h => if hasKey h.required_resources t
    then dget h.available_resources t else 0)).sum

/-- `sum(s for _, s in surplus_hospitals)` for type `t` (line 194/199). -/
def totalSurplus (hs : List Hospital) (t : String) : ℤ :=
  (hs.map (fun h => surplusAmt h t)).sum

/-- `sum(s for _, s in shortage_hospitals)` for type `t` (line 195/200). -/
def totalShortage (hs : List Hospital) (t : String) : ℤ :=
  (hs.map (fun h => shortageAmt h t)).sum

/-- `surplus_hospitals` non-empty for type `t` (line 185–187). -/
def existsSurplus (hs : List Hospital) (t : String) : Bool :=
  hs.any (fun h => hasKey h.required_resources t
    && decide (dget h.required_resources t < dget h.available_resources t))

/-- `shortage_hospitals` non-empty for type `t` (line 189–191). -/
def existsShortage (hs : List Hospital) (t : String) : Bool :=
  hs.any (fun h => hasKey h.required_resources t
    && decide (dget h.available_resources t < dget h.required_resources t))

/-- Whether a pooling opportunity is appended for type `t`
(`if surplus_hospitals and shortage_hospitals`, line 193). -/
def poolingEmitted (hs : List Hospital) (t : String) : Bool :=
  existsSurplus hs t && existsShortage hs t

/-- `transferable` of the pooling opportunity for type `t` (line 194–195). -/
def transferable (hs : List Hospital) (t : String) : ℤ :=
  min (totalSurplus hs t) (totalShortage hs t)

/-- `network_procurement.get(t, 0)` (lines 208–212): the dict stores
`total_requirements[t] − total_available[t]` only when positive, so the
default-0 lookup equals this `max`. -/
def networkProcurementNeeded (hs : List Hospital) (t : String) : ℤ :=
  max 0 (totalRequired hs t - totalAvailable hs t)

/-- The two-hospital input refuting C4 as stated: hospital A requires 10
oxygen and has 2; hospital B requires nothing and has 5 oxygen. -/
def poolingExampleHospitals : List Hospital :=
  [ ⟨"A", [("oxygen", 10)], [("oxygen", 2)]⟩
  , ⟨"B", [], [("oxygen", 5)]⟩ ]

/-- C4 counterexample: in `poolingExampleHospitals`, facility B has
surplus (available 5 > required 0) and facility A has shortage
(required 10 > available 2), yet no pooling opportunity is emitted —
the analysis loop iterates `required.keys()` only, so B's surplus is
never recorded — and the network procurement need is
`max(0, 10 − 2) = 8`, not `max(0, total_required − total_available)
= max(0, 10 − 7) = 3` with the totals taken over all facilities as the
claim states.  The claim as stated is therefore false at this input. -/
theorem C4_pooling_counterexample :
    (poolingExampleHospitals.any (fun h =>
        decide (dget h.required_resources "oxygen"
          < dget h.available_resources "oxygen"))) = true
      ∧ (poolingExampleHospitals.any (fun h =>
          decide (dget h.available_resources "oxygen"
            < dget h.required_resources "oxygen"))) = true
      ∧ poolingEmitted poolingExampleHospitals "oxygen" = false
      ∧ (poolingExampleHospitals.map
          (fun h => dget h.required_resources "oxygen")).sum = 10
      ∧ (poolingExampleHospitals.map
          (fun h => dget h.available_resources "oxygen")).sum = 7
      ∧ networkProcurementNeeded poolingExampleHospitals "oxygen" = 8
      ∧ networkProcurementNeeded poolingExampleHospitals "oxygen"
          ≠ max 0 ((poolingExampleHospitals.map
              (fun h => dget h.required_resources "oxygen")).sum
            - (poolingExampleHospitals.map
              (fun h => dget h.available_resources "oxygen")).sum) := by
  decide

/-- C4 as amended: restricted to inputs in which every facility's
required mapping lists the resource type (the situation the claim
implicitly assumes — the code counts a facility's availability,
surplus and shortage for a type only when the type is a key of that
facility's own required mapping), a pooling opportunity is emitted for
the type iff some facility has surplus and some facility has shortage,
the transferable amount is `min(Σ surpluses, Σ shortages)`, and the
network procurement need is `max(0, total required − total available)`
over all facilities.  The input `hospitals_data` is never mutated (the
embedding is a pure function of it). -/
theorem C4_pooling_amended (hs : List Hospital) (t : String)
    (hkeys : ∀ h ∈ hs, hasKey h.required_resources t = true) :
    (poolingEmitted hs t = true ↔
        ((∃ h ∈ hs, dget h.required_resources t < dget h.available_resources t)
          ∧ (∃ h ∈ hs, dget h.available_resources t < dget h.required_resources t)))
      ∧ transferable hs t
          = min ((hs.map (fun h => max 0 (dget h.available_resources t
                - dget h.required_resources t))).sum)
              ((hs.map (fun h => max 0 (dget h.required_resources t
                - dget h.available_resources t))).sum)
      ∧ networkProcurementNeeded hs t
          = max 0 ((hs.map (fun h => dget h.required_resources t)).sum
              - (hs.map (fun h => dget h.available_resources t)).sum) := by
  refine ⟨?_, ?_, ?_⟩
  · unfold poolingEmitted existsSurplus existsShortage
    rw [Bool.and_eq_true, List.any_eq_true, List.any_eq_true]
    constructor
    · rintro ⟨⟨h1, hm1, hb1⟩, h2, hm2, hb2⟩
      rw [hkeys h1 hm1, Bool.true_and] at hb1
      rw [hkeys h2 hm2, Bool.true_and] at hb2
      exact ⟨⟨h1, hm1, of_decide_eq_true hb1⟩, ⟨h2, hm2, of_decide_eq_true hb2⟩⟩
    · rintro ⟨⟨h1, hm1, hb1⟩, h2, hm2, hb2⟩
      refine ⟨⟨h1, hm1, ?_⟩, ⟨h2, hm2, ?_⟩⟩
      · rw [hkeys h1 hm1, Bool.true_and]
        exact decide_eq_true hb1
      · rw [hkeys h2 hm2, Bool.true_and]
        exact decide_eq_true hb2
  · unfold transferable totalSurplus totalShortage
    congr 1
    · refine congrArg List.sum (List.map_congr_left ?_)
      intro h hm
      unfold surplusAmt
      rw [hkeys h hm]
      simp only [true_and]
      split_ifs with hgt
      · rw [max_eq_right (by omega)]
      · rw [max_eq_left (by omega)]
    · refine congrArg List.sum (List.map_congr_left ?_)
      intro h hm
      unfold shortageAmt
      rw [hkeys h hm]
      simp only [true_and]
      split_ifs with hgt
      · rw [max_eq_right (by omega)]
      · rw [max_eq_left (by omega)]
  · unfold networkProcurementNeeded totalRequired totalAvailable
    congr 2
    · refine congrArg List.sum (List.map_congr_left ?_)
      intro h hm
      rw [hkeys h hm]
      simp
    · refine congrArg List.sum (List.map_congr_left ?_)
      intro h hm
      rw [hkeys h hm]
      simp

theorem C4_pooling_amended_witness :
    (poolingEmitted
          [ Hospital.mk "A" [("oxygen", 10)] [("oxygen", 2)]
          , Hospital.mk "B" [("oxygen", 3)] [("oxygen", 8)] ] "oxygen" = true ↔
        ((∃ h ∈ [ Hospital.mk "A" [("oxygen", 10)] [("oxygen", 2)]
              , Hospital.mk "B" [("oxygen", 3)] [("oxygen", 8)] ],
            dget h.required_resources "oxygen" < dget h.available_resources "oxygen")
          ∧ (∃ h ∈ [ Hospital.mk "A" [("oxygen", 10)] [("oxygen", 2)]
              , Hospital.mk "B" [("oxygen", 3)] [("oxygen", 8)] ],
            dget h.available_resources "oxygen" < dget h.required_resources "oxygen")))
      ∧ transferable
          [ Hospital.mk "A" [("oxygen", 10)] [("oxygen", 2)]
          , Hospital.mk "B" [("oxygen", 3)] [("oxygen", 8)] ] "oxygen"
          = min (([ Hospital.mk "A" [("oxygen", 10)] [("oxygen", 2)]
              , Hospital.mk "B" [("oxygen", 3)] [("oxygen", 8)] ].map
                (fun h => max 0 (dget h.available_resources "oxygen"
                  - dget h.required_resources "oxygen"))).sum)
              (([ Hospital.mk "A" [("oxygen", 10)] [("oxygen", 2)]
              , Hospital.mk "B" [("oxygen", 3)] [("oxygen", 8)] ].map
                (fun h => max 0 (dget h.required_resources "oxygen"
                  - dget h.available_resources "oxygen"))).sum)
      ∧ networkProcurementNeeded
          [ Hospital.mk "A" [("oxygen", 10)] [("oxygen", 2)]
          , Hospital.mk "B" [("oxygen", 3)] [("oxygen", 8)] ] "oxygen"
          = max 0 (([ Hospital.mk "A" [("oxygen", 10)] [("oxygen", 2)]
              , Hospital.mk "B" [("oxygen", 3)] [("oxygen", 8)] ].map
                (fun h => dget h.required_resources "oxygen")).sum
            - ([ Hospital.mk "A" [("oxygen", 10)] [("oxygen", 2)]
              , Hospital.mk "B" [("oxygen", 3)] [("oxygen", 8)] ].map
                (fun h => dget h.available_resources "oxygen")).sum) :=
  C4_pooling_amended
    [ Hospital.mk "A" [("oxygen", 10)] [("oxygen", 2)]
    , Hospital.mk "B" [("oxygen", 3)] [("oxygen", 8)] ] "oxygen"
    (by decide)

end Agent

end EcoHealth

